import Mathlib

/-!
Verification of `composer/airflow_1_samples/bq_copy_across_locations.py`
and `compute/client_library/snippets/images/get.py`.

The Python DAG script is embedded shallowly: the configuration file is a
value `Except Unit (List (List String))` (either an I/O error at open/read
time, or the list of CSV rows, each row a list of fields); logging is an
explicit log trace; Python exceptions that escape `read_table_list` are
modelled by `Except PyError`.
-/

/-- A parsed configuration record: `{"table_source": row[0], "table_dest": row[1]}`
from `read_table_list`. -/
structure TableRecord where
  table_source : String
  table_dest : String
deriving DecidableEq

/-- Python exceptions that can escape the embedded code: `IOError` from the
file open/read, `StopIteration` from `next(csv_reader)` on an empty file,
`IndexError` from `row[0]`/`row[1]` on a short row, and `TypeError` from
iterating over `None` in the DAG body. -/
inductive PyError where
  | ioError
  | stopIteration
  | indexError
  | typeError
deriving DecidableEq

/-- Log calls made by `read_table_list` via `logger`:
`logger.info(f"Reading table_list_file from : {str(table_list_file)}")`,
`logger.info(row)`, and
`logger.error(f"Error opening table_list_file {str(table_list_file)}: ", e)`. -/
inductive LogEntry where
  | info_reading (path : String)
  | info_row (row : List String)
  | error_open (path : String)
deriving DecidableEq

/-- The `for row in csv_reader` loop body of `read_table_list`: log the row,
then build `{"table_source": row[0], "table_dest": row[1]}` and append it.
`row[0]`/`row[1]` on a row with fewer than two fields raise `IndexError`,
which aborts the loop (the partial list is lost). -/
def parseRows : List (List String) → Except PyError (List TableRecord) × List LogEntry
  | [] => (Except.ok [], [])
  | row :: rest =>
    match row with
    | a :: b :: _ =>
      ((parseRows rest).1.map (fun l => ⟨a, b⟩ :: l),
       LogEntry.info_row row :: (parseRows rest).2)
    | _ => (Except.error PyError.indexError, [LogEntry.info_row row])

/-- `read_table_list(table_list_file)`: logs the path, opens the file
(`file` is the outcome of the open/read), skips the header row with
`next(csv_reader)` (raising `StopIteration` on an empty file, which the
`except IOError` clause does not catch), parses the remaining rows, and
returns the record list.  An `IOError` is caught: it is logged with the
failing path and the function falls through, returning Python's implicit
`None` (modelled as `Except.ok none`). -/
def read_table_list (table_list_file : String)
    (file : Except Unit (List (List String))) :
    Except PyError (Option (List TableRecord)) × List LogEntry :=
  let log0 := [LogEntry.info_reading table_list_file]
  match file with
  | Except.error _ => (Except.ok none, log0 ++ [LogEntry.error_open table_list_file])
  | Except.ok [] => (Except.error PyError.stopIteration, log0)
  | Except.ok (_hdr :: dataRows) =>
    ((parseRows dataRows).1.map some, log0 ++ (parseRows dataRows).2)

/-- `table_source.replace(":", "_")` / `table_dest.replace(":", "_")`:
the single-character replacement of each colon by an underscore. -/
def sanitize (s : String) : String :=
  ⟨s.data.map (fun c => if c = ':' then '_' else c)⟩

/-- `task_id=f'{table_source.replace(":", "_")}_BQ_to_GCS'`. -/
def bqToGcsId (r : TableRecord) : String :=
  sanitize r.table_source ++ "_BQ_to_GCS"

/-- `task_id=f'{table_source.replace(":", "_")}_GCS_to_GCS'`. -/
def gcsToGcsId (r : TableRecord) : String :=
  sanitize r.table_source ++ "_GCS_to_GCS"

/-- `task_id=f'{table_dest.replace(":", "_")}_GCS_to_BQ'`. -/
def gcsToBqId (r : TableRecord) : String :=
  sanitize r.table_dest ++ "_GCS_to_BQ"

/-- The operator kind and declared parameters of a task node. -/
inductive OpKind where
  | dummy (trigger_rule : String)
  | bigQueryToGCS (source_project_dataset_table : String)
      (destination_cloud_storage_uris : List String) (export_format : String)
  | gcsToGCS (source_bucket : String) (source_object : String)
      (destination_bucket : String)
  | gcsToBQ (bucket : String) (source_objects : List String)
      (destination_project_dataset_table : String) (source_format : String)
      (write_disposition : String) (autodetect : Bool)
deriving DecidableEq

/-- A task node of the Airflow DAG: its `task_id` and its operator. -/
structure TaskNode where
  task_id : String
  op : OpKind
deriving DecidableEq

/-- `start = dummy_operator.DummyOperator(task_id="start", trigger_rule="all_success")`. -/
def startTask : TaskNode := ⟨"start", OpKind.dummy "all_success"⟩

/-- `end = dummy_operator.DummyOperator(task_id="end", trigger_rule="all_success")`. -/
def endTask : TaskNode := ⟨"end", OpKind.dummy "all_success"⟩

/-- The three operator nodes built for one record in the DAG loop body:
`BQ_to_GCS` (BigQueryToCloudStorageOperator, AVRO export to a wildcard URI),
`GCS_to_GCS` (GoogleCloudStorageToGoogleCloudStorageOperator, bucket copy),
`GCS_to_BQ` (GoogleCloudStorageToBigQueryOperator, WRITE_TRUNCATE, autodetect). -/
def recordTasks (source_bucket dest_bucket : String) (r : TableRecord) : List TaskNode :=
  let table_source := r.table_source
  let table_dest := r.table_dest
  [ ⟨bqToGcsId r,
      OpKind.bigQueryToGCS table_source
        ["gs://" ++ source_bucket ++ "/" ++ table_source ++ "-*.avro"] "AVRO"⟩,
    ⟨gcsToGcsId r,
      OpKind.gcsToGCS source_bucket (table_source ++ "-*.avro") dest_bucket⟩,
    ⟨gcsToBqId r,
      OpKind.gcsToBQ dest_bucket [table_source ++ "-*.avro"] table_dest
        "AVRO" "WRITE_TRUNCATE" true⟩ ]

/-- The dependency edges declared for one record by
`start >> BQ_to_GCS >> GCS_to_GCS >> GCS_to_BQ >> end`. -/
def recordEdges (r : TableRecord) : List (String × String) :=
  [("start", bqToGcsId r), (bqToGcsId r, gcsToGcsId r),
   (gcsToGcsId r, gcsToBqId r), (gcsToBqId r, "end")]

/-- The workflow graph: its task nodes and its directed edges between task ids. -/
structure Dag where
  nodes : List TaskNode
  edges : List (String × String)
deriving DecidableEq

/-- The DAG built by the `with models.DAG(...)` body from a record list:
the `start` and `end` sentinels plus, per record in order, the three
operator nodes and the four chain edges. -/
def dag (source_bucket dest_bucket : String) (all_records : List TableRecord) : Dag :=
  ⟨startTask :: endTask :: all_records.flatMap (recordTasks source_bucket dest_bucket),
   all_records.flatMap recordEdges⟩

/-- The whole DAG-definition body: call `read_table_list` on the file, then
loop over `all_records` building the graph.  If `read_table_list` raised, the
exception propagates; if it returned `None` (I/O error path), the
`for record in all_records` line raises `TypeError`. -/
def build (source_bucket dest_bucket table_list_file : String)
    (file : Except Unit (List (List String))) :
    Except PyError Dag × List LogEntry :=
  match (read_table_list table_list_file file).1 with
  | Except.error e => (Except.error e, (read_table_list table_list_file file).2)
  | Except.ok none => (Except.error PyError.typeError, (read_table_list table_list_file file).2)
  | Except.ok (some all_records) =>
    (Except.ok (dag source_bucket dest_bucket all_records),
     (read_table_list table_list_file file).2)

/-- A provider images client, as an external collaborator: the two calls
`get_from_family(project=..., family=...)` and `get(project=..., image=...)`,
each either raising a provider error or returning an image descriptor. -/
structure ImagesClient (E Image : Type) where
  get_from_family : String → String → Except E Image
  get : String → String → Except E Image

/-- `get_image_from_family(project, family)`: construct the client and return
`image_client.get_from_family(project=project, family=family)` unchanged. -/
def get_image_from_family {E Image : Type} (image_client : ImagesClient E Image)
    (project family : String) : Except E Image :=
  image_client.get_from_family project family

/-- `get_image(project_id, image_name)`: construct the client and return
`image_client.get(project=project_id, image=image_name)` unchanged. -/
def get_image {E Image : Type} (image_client : ImagesClient E Image)
    (project_id image_name : String) : Except E Image :=
  image_client.get project_id image_name

/-! ## Helper lemmas -/

/-- `sanitize` never leaves a colon in its output. -/
theorem sanitize_no_colon (s : String) : ':' ∉ (sanitize s).data := by
  intro hmem
  simp only [sanitize, List.mem_map] at hmem
  obtain ⟨c, _, hc⟩ := hmem
  by_cases h : c = ':'
  · simp [h] at hc
  · simp [h] at hc

/-- The per-record task lists contribute three nodes per record. -/
theorem length_flatMap_recordTasks (sb db : String) (rs : List TableRecord) :
    (rs.flatMap (recordTasks sb db)).length = 3 * rs.length := by
  induction rs with
  | nil => rfl
  | cons r rest ih =>
    simp only [List.flatMap_cons, List.length_append, ih, recordTasks,
      List.length_cons, List.length_nil]
    omega

/-- When every data row has at least two fields, the parse loop succeeds and
maps each row to the record built from its first two fields, in order. -/
theorem parseRows_fst_of_wf (rows : List (List String))
    (h : ∀ row ∈ rows, 2 ≤ row.length) :
    (parseRows rows).1 =
      Except.ok (rows.map fun row => ⟨row.getD 0 "", row.getD 1 ""⟩) := by
  induction rows with
  | nil => rfl
  | cons row rest ih =>
    have hrow : 2 ≤ row.length := h row (List.mem_cons_self row rest)
    cases row with
    | nil => simp at hrow
    | cons a row1 =>
      cases row1 with
      | nil => simp at hrow
      | cons b t =>
        have ihh := ih (fun r hr => h r (List.mem_cons_of_mem _ hr))
        simp [parseRows, ihh, List.getD, Except.map]

/-- When some data row has fewer than two fields, the parse loop aborts with
`IndexError`. -/
theorem parseRows_fst_of_short (rows : List (List String))
    (h : ∃ row ∈ rows, row.length < 2) :
    (parseRows rows).1 = Except.error PyError.indexError := by
  induction rows with
  | nil => simp at h
  | cons row rest ih =>
    cases row with
    | nil => simp [parseRows]
    | cons a row1 =>
      cases row1 with
      | nil => simp [parseRows]
      | cons b t =>
        obtain ⟨w, hw, hlen⟩ := h
        rcases List.mem_cons.mp hw with rfl | hw2
        · simp only [List.length_cons] at hlen
          exact absurd hlen (by omega)
        · simp [parseRows, ih ⟨w, hw2, hlen⟩, Except.map]

/-! ## Claim theorems -/

/-- C1: for every configuration with N data records, the built graph has
exactly the two sentinels plus 3·N chain nodes; every record's chain is
wired `start → export → relocate → import → end`; and every edge of the
graph belongs to some record's chain (through the shared sentinels only),
so no edge connects one chain to another. -/
theorem C1_chain_structure (sb db : String) (rs : List TableRecord) :
    (dag sb db rs).nodes.length = 2 + 3 * rs.length ∧
    (∀ r ∈ rs,
      ("start", bqToGcsId r) ∈ (dag sb db rs).edges ∧
      (bqToGcsId r, gcsToGcsId r) ∈ (dag sb db rs).edges ∧
      (gcsToGcsId r, gcsToBqId r) ∈ (dag sb db rs).edges ∧
      (gcsToBqId r, "end") ∈ (dag sb db rs).edges) ∧
    (∀ e ∈ (dag sb db rs).edges, ∃ r ∈ rs,
      e = ("start", bqToGcsId r) ∨ e = (bqToGcsId r, gcsToGcsId r) ∨
      e = (gcsToGcsId r, gcsToBqId r) ∨ e = (gcsToBqId r, "end")) := by
  refine ⟨?_, ?_, ?_⟩
  · simp only [dag, List.length_cons, length_flatMap_recordTasks]
    omega
  · intro r hr
    refine ⟨?_, ?_, ?_, ?_⟩ <;>
      · simp only [dag, List.mem_flatMap]
        exact ⟨r, hr, by simp [recordEdges]⟩
  · intro e he
    simp only [dag, List.mem_flatMap, recordEdges, List.mem_cons,
      List.mem_singleton, List.not_mem_nil, or_false] at he
    obtain ⟨r, hr, hcase⟩ := he
    exact ⟨r, hr, hcase⟩

/-- C2 (counterexample): for a header-only configuration (zero data records),
the built graph does NOT contain a direct edge from `start` to `end`;
the claim that start and end are "connected directly by an edge" is false. -/
theorem C2_counterexample :
    ("start", "end") ∉ (dag "gcs_source_bucket" "gcs_dest_bucket" []).edges := by
  simp [dag]

/-- C2 (amended): for a header-only configuration (zero data records), the
built graph contains exactly the `start` and `end` sentinel nodes and no
edges at all — start and end are left unconnected. -/
theorem C2_empty_config (sb db : String) :
    (dag sb db []).nodes = [startTask, endTask] ∧ (dag sb db []).edges = [] := by
  constructor <;> rfl

/-- C3: on an I/O error, `read_table_list` logs an error entry naming the
failing path, raises nothing (the `except IOError` clause swallows the
error), and yields Python's implicit `None` — no usable result. -/
theorem C3_io_error_swallowed (table_list_file : String) :
    read_table_list table_list_file (Except.error ()) =
      (Except.ok none,
       [LogEntry.info_reading table_list_file, LogEntry.error_open table_list_file]) := rfl

/-- C4: for a record whose table identifiers contain a colon, none of the
three derived task identifiers contains a colon (every colon is replaced by
an underscore by the sanitization). -/
theorem C4_task_ids_colon_free (r : TableRecord)
    (h : ':' ∈ r.table_source.data ∨ ':' ∈ r.table_dest.data) :
    ':' ∉ (bqToGcsId r).data ∧ ':' ∉ (gcsToGcsId r).data ∧
      ':' ∉ (gcsToBqId r).data := by
  refine ⟨?_, ?_, ?_⟩ <;>
    · simp only [bqToGcsId, gcsToGcsId, gcsToBqId, String.data_append,
        List.mem_append, not_or]
      exact ⟨sanitize_no_colon _, by decide⟩

/-- Witness for C4 at the spec's own scenario record. -/
theorem C4_task_ids_colon_free_witness :
    (':' ∈ "proj:ds.src".data ∨ ':' ∈ "proj:ds.dst".data) ∧
    (':' ∉ (bqToGcsId ⟨"proj:ds.src", "proj:ds.dst"⟩).data ∧
     ':' ∉ (gcsToGcsId ⟨"proj:ds.src", "proj:ds.dst"⟩).data ∧
     ':' ∉ (gcsToBqId ⟨"proj:ds.src", "proj:ds.dst"⟩).data) :=
  ⟨by decide, C4_task_ids_colon_free ⟨"proj:ds.src", "proj:ds.dst"⟩ (by decide)⟩

/-- C5: for a readable file whose data rows all have at least two fields,
`read_table_list` discards the header row and returns one record per data
row, in file order, with `table_source := row[0]` and `table_dest := row[1]`. -/
theorem C5_header_skip_and_order (table_list_file : String) (hdr : List String)
    (rows : List (List String)) (h : ∀ row ∈ rows, 2 ≤ row.length) :
    (read_table_list table_list_file (Except.ok (hdr :: rows))).1 =
      Except.ok (some (rows.map fun row =>
        ⟨row.getD 0 "", row.getD 1 ""⟩)) := by
  simp [read_table_list, parseRows_fst_of_wf rows h, Except.map]

/-- Witness for C5 at the spec's own scenario file. -/
theorem C5_header_skip_and_order_witness :
    (∀ row ∈ [["proj:ds.src", "proj:ds.dst"]], 2 ≤ (row : List String).length) ∧
    (read_table_list "p" (Except.ok [["source", "dest"],
        ["proj:ds.src", "proj:ds.dst"]])).1 =
      Except.ok (some [⟨"proj:ds.src", "proj:ds.dst"⟩]) :=
  ⟨by decide,
   C5_header_skip_and_order "p" ["source", "dest"]
     [["proj:ds.src", "proj:ds.dst"]] (by decide)⟩

/-- C6: parsing and building are deterministic in the file contents — equal
contents give equal `read_table_list` results (records and logs) and a
structurally identical graph from the DAG body. -/
theorem C6_deterministic (sb db table_list_file : String)
    (file1 file2 : Except Unit (List (List String))) (h : file1 = file2) :
    read_table_list table_list_file file1 = read_table_list table_list_file file2 ∧
    build sb db table_list_file file1 = build sb db table_list_file file2 := by
  subst h
  exact ⟨rfl, rfl⟩

/-- Witness for C6 at a concrete two-row file. -/
theorem C6_deterministic_witness :
    (Except.ok [["source", "dest"], ["a.b", "c.d"]] :
        Except Unit (List (List String))) =
      Except.ok [["source", "dest"], ["a.b", "c.d"]] ∧
    (read_table_list "p" (Except.ok [["source", "dest"], ["a.b", "c.d"]]) =
      read_table_list "p" (Except.ok [["source", "dest"], ["a.b", "c.d"]]) ∧
     build "sb" "db" "p" (Except.ok [["source", "dest"], ["a.b", "c.d"]]) =
      build "sb" "db" "p" (Except.ok [["source", "dest"], ["a.b", "c.d"]])) :=
  ⟨rfl, C6_deterministic "sb" "db" "p" _ _ rfl⟩

/-- C7: a data row with fewer than two fields is not handled locally: the
`IndexError` from `row[1]` (or `row[0]`) escapes `read_table_list` — the
result is the propagated exception, not a logged-and-absent value. -/
theorem C7_malformed_row_raises (table_list_file : String) (hdr : List String)
    (rows : List (List String)) (h : ∃ row ∈ rows, row.length < 2) :
    (read_table_list table_list_file (Except.ok (hdr :: rows))).1 =
      Except.error PyError.indexError := by
  simp [read_table_list, parseRows_fst_of_short rows h, Except.map]

/-- Witness for C7 at a file with one single-field data row. -/
theorem C7_malformed_row_raises_witness :
    (∃ row ∈ [["only_one_field"]], (row : List String).length < 2) ∧
    (read_table_list "p" (Except.ok [["source", "dest"],
        ["only_one_field"]])).1 = Except.error PyError.indexError :=
  ⟨⟨["only_one_field"], by decide, by decide⟩,
   C7_malformed_row_raises "p" ["source", "dest"] [["only_one_field"]]
     ⟨["only_one_field"], by decide, by decide⟩⟩

/-- C8: every record of the configuration yields, in the built graph, an
export node with AVRO format and a wildcard URI derived from the source
table, a relocate node copying those wildcard objects from the source
bucket to the destination bucket, and an import node targeting the
destination table with WRITE_TRUNCATE and schema autodetection. -/
theorem C8_operator_params (sb db : String) (rs : List TableRecord)
    (r : TableRecord) (hr : r ∈ rs) :
    (⟨bqToGcsId r, OpKind.bigQueryToGCS r.table_source
        ["gs://" ++ sb ++ "/" ++ r.table_source ++ "-*.avro"] "AVRO"⟩ : TaskNode)
      ∈ (dag sb db rs).nodes ∧
    (⟨gcsToGcsId r, OpKind.gcsToGCS sb (r.table_source ++ "-*.avro") db⟩ : TaskNode)
      ∈ (dag sb db rs).nodes ∧
    (⟨gcsToBqId r, OpKind.gcsToBQ db [r.table_source ++ "-*.avro"] r.table_dest
        "AVRO" "WRITE_TRUNCATE" true⟩ : TaskNode) ∈ (dag sb db rs).nodes := by
  refine ⟨?_, ?_, ?_⟩ <;>
    · simp only [dag, List.mem_cons, List.mem_flatMap]
      refine Or.inr (Or.inr ⟨r, hr, ?_⟩)
      simp [recordTasks]

/-- Witness for C8 at a one-record configuration. -/
theorem C8_operator_params_witness :
    (⟨"a:b", "c:d"⟩ : TableRecord) ∈ [(⟨"a:b", "c:d"⟩ : TableRecord)] ∧
    (⟨bqToGcsId ⟨"a:b", "c:d"⟩, OpKind.bigQueryToGCS "a:b"
        ["gs://" ++ "srcb" ++ "/" ++ "a:b" ++ "-*.avro"] "AVRO"⟩ : TaskNode)
      ∈ (dag "srcb" "dstb" [⟨"a:b", "c:d"⟩]).nodes :=
  ⟨by decide,
   (C8_operator_params "srcb" "dstb" [⟨"a:b", "c:d"⟩] ⟨"a:b", "c:d"⟩ (by decide)).1⟩

/-- C9: `get_image_from_family` and `get_image` are pure pass-throughs: each
returns exactly the result of the corresponding provider-client call on the
same arguments, with no transformation and no added error handling. -/
theorem C9_pass_through {E Image : Type} (image_client : ImagesClient E Image)
    (project family project_id image_name : String) :
    get_image_from_family image_client project family =
      image_client.get_from_family project family ∧
    get_image image_client project_id image_name =
      image_client.get project_id image_name :=
  ⟨rfl, rfl⟩

/-- C10: for a completely empty readable file (no header row), the
`next(csv_reader)` header skip raises `StopIteration`, which the
`except IOError` clause does not catch: `read_table_list` propagates it
instead of returning an empty list or the logged-and-`None` I/O result. -/
theorem C10_empty_file_raises (table_list_file : String) :
    read_table_list table_list_file (Except.ok []) =
      (Except.error PyError.stopIteration,
       [LogEntry.info_reading table_list_file]) := rfl
